import Mathlib

/-!
Shallow embedding of the AnonWall client (src/src/App.js) in Lean 4.

JS objects used as reaction tallies are modelled as association lists in key
insertion order (JS string-keyed objects preserve insertion order and have
unique keys). Asynchronous calls to the external store are modelled by passing
their outcome (success payload or failure) as an explicit argument; the
`console.error` / `alert` channels are modelled as explicit log / alert fields
of the result. Timestamps (`new Date(...).getTime()`) are modelled as integers.
-/

namespace AnonWall

set_option maxRecDepth 8000

/-- Reaction tally: a JS object mapping reaction-kind keys to counts,
modelled as an association list in key insertion order. -/
abbrev Tally := List (String × Nat)

/-- Model of the JS computed-key object update (spread of the old object with
one key set): if the key is present its value is replaced in place, otherwise
the key is appended at the end. -/
def objSet : Tally → String → Nat → Tally
  | [], k, v => [(k, v)]
  | (k0, v0) :: rest, k, v =>
    if k0 = k then (k, v) :: rest else (k0, v0) :: objSet rest k v

/-- One entry of the REACTIONS constant of App.js. -/
structure Reaction where
  id : String
  emoji : String
  label : String
deriving DecidableEq, Repr

/-- The fixed reaction enumeration (App.js lines 10-16). -/
def REACTIONS : List Reaction :=
  [⟨"heart", "❤️", "Love"⟩,
   ⟨"support", "🤝", "Support"⟩,
   ⟨"hug", "🤗", "Hug"⟩,
   ⟨"relatable", "🔥", "Relatable"⟩,
   ⟨"sad", "😢", "Felt this"⟩]

/-- The fixed tag enumeration, as (value, label) pairs (App.js lines 18-26). -/
def TAG_OPTIONS : List (String × String) :=
  [("general", "General"),
   ("love", "Love & Relationships"),
   ("family", "Family"),
   ("school", "School / College"),
   ("work", "Work / Career"),
   ("mental", "Mental Health"),
   ("random", "Random Thoughts")]

/-- The fixed nickname list (App.js lines 28-39). -/
def NICKNAMES : List String :=
  ["Silent Fox", "Midnight Star", "Hidden Lotus", "Faded Echo", "Secret Nebula",
   "Gentle Storm", "Quiet Ember", "Moon Walker", "Soft Comet", "Lost Prism"]

/-- The fixed color list (App.js lines 41-50). -/
def COLORS : List String :=
  ["#6366F1", "#EC4899", "#F97316", "#22C55E", "#06B6D4", "#A855F7", "#FACC15", "#FB7185"]

/-- The anonymous identity triple. -/
structure Identity where
  id : String
  name : String
  color : String
deriving DecidableEq, Repr

/-- The three persisted identity keys of localStorage, each possibly absent. -/
structure LocalStorage where
  userId : Option String
  userName : Option String
  userColor : Option String
deriving DecidableEq, Repr

/-- JS falsiness of a possibly-absent string (`!x` is true for null and for the
empty string). -/
def isFalsy : Option String → Bool
  | none => true
  | some s => s == ""

/-- Model of getOrCreateUserIdentity (App.js lines 53-78). The randomness of
Math.random is passed in explicitly: `randId` is the random base-36 suffix and
`ni`, `ci` are the random indices into the fixed lists. `storageOk` is false
when localStorage throws, selecting the catch branch. Returns the identity
together with the updated storage. -/
def getOrCreateUserIdentity (storageOk : Bool) (ls : LocalStorage) (randId : String)
    (ni : Fin NICKNAMES.length) (ci : Fin COLORS.length) : Identity × LocalStorage :=
  if storageOk then
    if isFalsy ls.userId || isFalsy ls.userName || isFalsy ls.userColor then
      let id := "anon-" ++ randId
      let name := NICKNAMES.get ni
      let color := COLORS.get ci
      (⟨id, name, color⟩, ⟨some id, some name, some color⟩)
    else
      (⟨ls.userId.getD "", ls.userName.getD "", ls.userColor.getD ""⟩, ls)
  else
    (⟨"anon-" ++ randId, "Anon", "#6366F1"⟩, ls)

/-- Raw post record as returned by the external store. `reactions` is `none`
when the column is null or absent; the other optional fields likewise. The
created_at column is modelled directly as the numeric timestamp the Date
parse yields. -/
structure Row where
  id : String
  text : String
  tag : String
  tag_label : String
  created_at : Int
  reactions : Option Tally
  user_id : Option String
  user_name : Option String
  user_color : Option String
deriving DecidableEq, Repr

/-- Post as held in the client store. -/
structure Post where
  id : String
  text : String
  tag : String
  tagLabel : String
  createdAt : Int
  reactions : Tally
  userId : Option String
  userName : String
  userColor : String
deriving DecidableEq, Repr

/-- Model of mapRowToPost (App.js lines 80-92): a null reactions column becomes
the empty object, absent author fields get their defaults. -/
def mapRowToPost (row : Row) : Post :=
  { id := row.id
    text := row.text
    tag := row.tag
    tagLabel := row.tag_label
    createdAt := row.created_at
    reactions := row.reactions.getD []
    userId := row.user_id
    userName := row.user_name.getD "anon"
    userColor := row.user_color.getD "#4B5563" }

/-- Total reaction count of a post: Object.values of the tally reduced by
addition (App.js lines 128-129). -/
def score (p : Post) : Nat :=
  p.reactions.foldl (fun s kv => s + kv.2) 0

/-- Comparator of the newest branch as a boolean order: a precedes b when the
JS comparator b.createdAt - a.createdAt is nonpositive. -/
def newestLE (a b : Post) : Bool := decide (b.createdAt ≤ a.createdAt)

/-- Comparator of the oldest branch as a boolean order. -/
def oldestLE (a b : Post) : Bool := decide (a.createdAt ≤ b.createdAt)

/-- Comparator of the top branch as a boolean order: descending by score, ties
broken by descending createdAt (App.js lines 127-133). -/
def topLE (a b : Post) : Bool :=
  if score a = score b then decide (b.createdAt ≤ a.createdAt)
  else decide (score b < score a)

/-- Model of sortPosts (App.js lines 121-138). The JS Array.prototype.sort is
a stable sort consistent with the comparator; it is modelled by the stable
List.mergeSort on a copy of the input list. The switch on the sort type falls
through to the newest branch for every string other than "oldest" and "top". -/
def sortPosts (posts : List Post) (sortType : String) : List Post :=
  if sortType = "oldest" then posts.mergeSort oldestLE
  else if sortType = "top" then posts.mergeSort topLE
  else posts.mergeSort newestLE

/-- Model of fetchPosts (App.js lines 172-188). The awaited select is passed
in as its outcome: an error, or a success whose data may be null. On error the
store is left untouched and one message goes to the error channel; on success
the store is replaced by the mapped rows. Returns (new store, error log). -/
def fetchPosts (store : List Post) (result : Except String (Option (List Row))) :
    List Post × List String :=
  match result with
  | Except.error e => (store, ["Error loading posts: " ++ e])
  | Except.ok data => ((data.getD []).map mapRowToPost, [])

/-- Model of the polling effect (App.js lines 191-211): setInterval fires a
fetch on every tick regardless of earlier outcomes; each tick folds its
outcome into the store through fetchPosts. -/
def pollLoop (store : List Post) : List (Except String (Option (List Row))) → List Post
  | [] => store
  | r :: rest => pollLoop (fetchPosts store r).1 rest

/-- Model of JS String.prototype.trim: drop whitespace from both ends. -/
def jsTrim (s : String) : String :=
  ⟨((s.data.dropWhile Char.isWhitespace).reverse.dropWhile Char.isWhitespace).reverse⟩

/-- The all-zero initial tally built by handleSubmit (App.js lines 229-232):
REACTIONS reduced into an object with every reaction id set to 0. -/
def zeroTally : Tally :=
  REACTIONS.foldl (fun acc r => objSet acc r.id 0) []

/-- Record sent to the external store by the insert call of handleSubmit. -/
structure InsertRecord where
  text : String
  tag : String
  tag_label : String
  reactions : Tally
  user_id : String
  user_name : String
  user_color : String
deriving DecidableEq, Repr

/-- Observable outcome of one handleSubmit call: the insert request issued to
the network (none when rejected client-side), the alert shown to the user, the
composer text afterwards, and whether a refresh fetch was triggered. -/
structure SubmitResult where
  insert : Option InsertRecord
  alert : Option String
  textAfter : String
  refresh : Bool
deriving DecidableEq, Repr

/-- Model of handleSubmit (App.js lines 219-254). `insertFails` is the outcome
of the awaited insert call. The only client-side validation is the trimmed
length lower bound of 5; there is no upper-bound check in the handler (the
textarea maxLength caps the raw input at 400 upstream of it). -/
def handleSubmit (text tag : String) (user : Identity) (insertFails : Bool) : SubmitResult :=
  let trimmed := jsTrim text
  if trimmed.length < 5 then
    { insert := none
      alert := some "Write at least a few words to share your confession."
      textAfter := text
      refresh := false }
  else
    let tagMeta := (TAG_OPTIONS.find? (fun t => t.1 = tag)).getD ("general", "General")
    let record : InsertRecord :=
      { text := trimmed
        tag := tagMeta.1
        tag_label := tagMeta.2
        reactions := zeroTally
        user_id := user.id
        user_name := user.name
        user_color := user.color }
    if insertFails then
      { insert := some record
        alert := some "Something went wrong while posting. Please try again."
        textAfter := text
        refresh := false }
    else
      { insert := some record
        alert := none
        textAfter := ""
        refresh := true }

/-- Observable outcome of one handleReact call: the store afterwards, the
update request issued to the network (post id and full new tally map), and
the error log. -/
structure ReactResult where
  posts : List Post
  write : Option (String × Tally)
  log : List String
deriving DecidableEq, Repr

/-- The new tally computed by handleReact (App.js lines 260-263): spread of the
old tally with the clicked kind set to its old count (0 when absent) plus 1. -/
def newTallyOf (post : Post) (reactionId : String) : Tally :=
  objSet post.reactions reactionId ((List.lookup reactionId post.reactions).getD 0 + 1)

/-- Model of handleReact (App.js lines 256-279). `writeFails` is the outcome of
the awaited update call. On an unknown post id the handler returns at once:
no store change, no network write, no log entry. Otherwise the store is
updated optimistically (independently of the write outcome, which is only
logged on failure and never rolled back). -/
def handleReact (posts : List Post) (postId reactionId : String) (writeFails : Bool) :
    ReactResult :=
  match posts.find? (fun p => p.id == postId) with
  | none => ⟨posts, none, []⟩
  | some post =>
    let newReactions := newTallyOf post reactionId
    ⟨posts.map (fun p => if p.id = postId then { p with reactions := newReactions } else p),
     some (postId, newReactions),
     if writeFails then ["Error updating reactions"] else []⟩

/-- Modelled from the spec wording of section 4.2 only (the code has no such
operation): the old tally is element-wise at least the snapshot tally over
every reaction kind. Used to state the reconciliation claim being checked. -/
def specTallyGE (told tnew : Tally) : Bool :=
  REACTIONS.all (fun r => (List.lookup r.id tnew).getD 0 ≤ (List.lookup r.id told).getD 0)

/-- Scenario post A of the top-sort scenario: score 5, older. -/
def postA : Post :=
  { id := "A", text := "post a", tag := "general", tagLabel := "General"
    createdAt := 100
    reactions := [("heart", 5), ("support", 0), ("hug", 0), ("relatable", 0), ("sad", 0)]
    userId := none, userName := "anon", userColor := "#4B5563" }

/-- Scenario post B of the top-sort scenario: score 5, newer. -/
def postB : Post :=
  { id := "B", text := "post b", tag := "general", tagLabel := "General"
    createdAt := 200
    reactions := [("heart", 2), ("support", 0), ("hug", 3), ("relatable", 0), ("sad", 0)]
    userId := none, userName := "anon", userColor := "#4B5563" }

/-- Scenario post C of the top-sort scenario: score 2. -/
def postC : Post :=
  { id := "C", text := "post c", tag := "general", tagLabel := "General"
    createdAt := 150
    reactions := [("heart", 0), ("support", 0), ("hug", 0), ("relatable", 0), ("sad", 2)]
    userId := none, userName := "anon", userColor := "#4B5563" }

/-- Store state of the reconciliation scenario: post p1 with a local tally of
three hearts (after three optimistic increments). -/
def oldPostC1 : Post :=
  { id := "p1", text := "hello there", tag := "general", tagLabel := "General"
    createdAt := 0
    reactions := [("heart", 3), ("support", 0), ("hug", 0), ("relatable", 0), ("sad", 0)]
    userId := none, userName := "anon", userColor := "#4B5563" }

/-- Snapshot row of the reconciliation scenario: the same post id with a
lagging tally of one heart. -/
def rowC1 : Row :=
  { id := "p1", text := "hello there", tag := "general", tag_label := "General"
    created_at := 0
    reactions := some [("heart", 1), ("support", 0), ("hug", 0), ("relatable", 0), ("sad", 0)]
    user_id := none, user_name := none, user_color := none }

/-- Raw row whose reactions column is null, for the tally-entries invariant. -/
def rowNull : Row :=
  { id := "r1", text := "some text", tag := "general", tag_label := "General"
    created_at := 7
    reactions := none
    user_id := none, user_name := none, user_color := none }

/-- Fixed identity used to instantiate witnesses. -/
def userW : Identity := ⟨"anon-w1a2b3c4", "Silent Fox", "#6366F1"⟩

/-- Concrete body text of 401 non-whitespace characters (trimming keeps all of
them), exceeding the documented 400-character upper bound. -/
def long401 : String := String.mk (List.replicate 401 'a')

/-- Concrete post whose tally is the all-zero tally. -/
def postZero : Post :=
  { id := "Z", text := "post z", tag := "general", tagLabel := "General"
    createdAt := 5
    reactions := zeroTally
    userId := none, userName := "anon", userColor := "#4B5563" }

/-- Concrete insert record produced by an accepted submission of "hello". -/
def recW : InsertRecord :=
  ⟨"hello", "general", "General", zeroTally, "anon-w1a2b3c4", "Silent Fox", "#6366F1"⟩

/-! Helper lemmas about the embedded operations. -/

theorem lookup_objSet_self (t : Tally) (k : String) (v : Nat) :
    List.lookup k (objSet t k v) = some v := by
  induction t with
  | nil => simp [objSet]
  | cons kv rest ih =>
    obtain ⟨k0, v0⟩ := kv
    by_cases h : k0 = k
    · simp [objSet, h]
    · simp only [objSet]
      rw [if_neg h, List.lookup_cons, beq_false_of_ne (Ne.symm h)]
      simpa using ih

theorem lookup_objSet_ne (t : Tally) (k k2 : String) (v : Nat) (h : k2 ≠ k) :
    List.lookup k2 (objSet t k v) = List.lookup k2 t := by
  induction t with
  | nil =>
    simp only [objSet]
    rw [List.lookup_cons, beq_false_of_ne h]
  | cons kv rest ih =>
    obtain ⟨k0, v0⟩ := kv
    by_cases hk : k0 = k
    · rw [show objSet ((k0, v0) :: rest) k v = (k, v) :: rest by simp [objSet, hk],
          List.lookup_cons, List.lookup_cons, beq_false_of_ne h,
          beq_false_of_ne (fun e => h (e.trans hk))]
    · simp only [objSet]
      rw [if_neg hk, List.lookup_cons, List.lookup_cons]
      by_cases h2 : k2 = k0
      · simp [h2]
      · rw [beq_false_of_ne h2]
        simpa using ih

theorem score_eq_sum (p : Post) : score p = (p.reactions.map Prod.snd).sum := by
  have key : ∀ (l : Tally) (n : Nat),
      l.foldl (fun s kv => s + kv.2) n = n + (l.map Prod.snd).sum := by
    intro l
    induction l with
    | nil => simp
    | cons kv rest ih =>
      intro n
      simp only [List.foldl_cons, List.map_cons, List.sum_cons, ih]
      omega
  simpa using key p.reactions 0

theorem topLE_trans (a b c : Post) : topLE a b → topLE b c → topLE a c := by
  simp only [topLE]
  split_ifs <;> simp_all <;> omega

theorem topLE_total (a b : Post) : topLE a b || topLE b a := by
  simp only [topLE]
  split_ifs <;> simp_all <;> omega

theorem topLE_eq_true_iff (a b : Post) :
    topLE a b = true ↔
      (score b < score a ∨ (score a = score b ∧ b.createdAt ≤ a.createdAt)) := by
  simp only [topLE]
  split_ifs with h <;> simp [h] <;> omega

theorem sortPosts_top (posts : List Post) :
    sortPosts posts "top" = posts.mergeSort topLE := by
  unfold sortPosts
  rw [if_neg (by decide), if_pos rfl]

theorem getOrCreate_second_call (id name color : String)
    (hid : isFalsy (some id) = false) (hname : isFalsy (some name) = false)
    (hcolor : isFalsy (some color) = false)
    (randId2 : String) (ni2 : Fin NICKNAMES.length) (ci2 : Fin COLORS.length) :
    getOrCreateUserIdentity true ⟨some id, some name, some color⟩ randId2 ni2 ci2
      = (⟨id, name, color⟩, ⟨some id, some name, some color⟩) := by
  unfold getOrCreateUserIdentity
  rw [if_pos rfl, if_neg (by simp [hid, hname, hcolor])]
  rfl

/-! Claim theorems. -/

/-- C1 counterexample: post p1 is held locally with three hearts and the
snapshot carries the same id with one heart, so the old tally is element-wise
at least the snapshot tally; the claim then demands that the old tally be
retained, but fetchPosts adopts the snapshot tally of one heart — the store
does not keep the local three. -/
theorem C1_counterexample :
    specTallyGE oldPostC1.reactions (mapRowToPost rowC1).reactions = true
    ∧ (fetchPosts [oldPostC1] (Except.ok (some [rowC1]))).1 = [mapRowToPost rowC1]
    ∧ List.lookup "heart" oldPostC1.reactions = some 3
    ∧ List.lookup "heart" (mapRowToPost rowC1).reactions = some 1
    ∧ (fetchPosts [oldPostC1] (Except.ok (some [rowC1]))).1 ≠ [oldPostC1] :=
  ⟨by decide, by decide, by decide, by decide, by decide⟩

/-- C1 amended: a successful fetch replaces the store contents with the mapped
snapshot unconditionally — the result never depends on the old store, so the
snapshot tally is always adopted exactly and no local tally survives. -/
theorem C1_amended_snapshot_replaces (s1 s2 : List Post) (data : Option (List Row)) :
    (fetchPosts s1 (Except.ok data)).1 = (data.getD []).map mapRowToPost
    ∧ (fetchPosts s1 (Except.ok data)).1 = (fetchPosts s2 (Except.ok data)).1 :=
  ⟨rfl, rfl⟩

/-- C2 counterexample: a raw record whose reactions column is null maps to a
post whose tally is the empty mapping, with no entry at all for the heart kind
(nor any other) — absent tally entries are not defaulted to zero at the store
boundary. -/
theorem C2_counterexample :
    (mapRowToPost rowNull).reactions = []
    ∧ List.lookup "heart" (mapRowToPost rowNull).reactions = none :=
  ⟨rfl, rfl⟩

/-- C2 amended: only locally submitted records are given a tally with an
explicit zero entry for each of the five reaction kinds; a post mapped from a
raw remote record keeps the raw tally exactly as delivered, an absent tally
defaulting to the empty mapping rather than to per-kind zeros. -/
theorem C2_amended_tally_entries (text tag : String) (user : Identity) (fails : Bool)
    (h : 5 ≤ (jsTrim text).length) (row : Row) :
    (handleSubmit text tag user fails).insert.map InsertRecord.reactions = some zeroTally
    ∧ List.lookup "heart" zeroTally = some 0
    ∧ List.lookup "support" zeroTally = some 0
    ∧ List.lookup "hug" zeroTally = some 0
    ∧ List.lookup "relatable" zeroTally = some 0
    ∧ List.lookup "sad" zeroTally = some 0
    ∧ (mapRowToPost row).reactions = row.reactions.getD [] := by
  refine ⟨?_, by decide, by decide, by decide, by decide, by decide, rfl⟩
  unfold handleSubmit
  rw [if_neg (by omega)]
  cases fails <;> rfl

/-- C2 witness: the theorem applied to the accepted submission of the
five-character body "hello". -/
theorem C2_witness :
    (handleSubmit "hello" "general" userW false).insert.map InsertRecord.reactions
      = some zeroTally :=
  (C2_amended_tally_entries "hello" "general" userW false (by decide) rowNull).1

/-- C5 counterexample: a body of 401 non-whitespace characters trims to length
401, which the claim says is rejected client-side with a user-visible message
and no network call; handleSubmit instead issues the network insert and shows
no message (the only length check in the handler is the lower bound of 5). -/
theorem C5_counterexample :
    (jsTrim long401).length = 401
    ∧ (handleSubmit long401 "general" userW false).insert.isSome = true
    ∧ (handleSubmit long401 "general" userW false).alert = none :=
  ⟨by decide, by decide, by decide⟩

/-- C5 amended: handleSubmit rejects exactly the bodies whose trimmed length is
below 5, with a user-visible message and no network call; every body of trimmed
length at least 5 proceeds to the network insert. The upper bound of 400 is not
checked by the handler (the textarea maxLength caps raw input upstream). -/
theorem C5_amended_min_length_only (text tag : String) (user : Identity) (fails : Bool) :
    ((handleSubmit text tag user fails).insert.isSome ↔ 5 ≤ (jsTrim text).length)
    ∧ ((jsTrim text).length < 5 →
        (handleSubmit text tag user fails).insert = none
        ∧ (handleSubmit text tag user fails).alert =
            some "Write at least a few words to share your confession.") := by
  by_cases h : (jsTrim text).length < 5 <;>
    cases fails <;> simp [handleSubmit, h] <;> omega

/-- C5 witness: the theorem applied to the four-character body "hey!", which is
rejected with the message and no insert. -/
theorem C5_witness :
    (handleSubmit "hey!" "general" userW false).insert = none
    ∧ (handleSubmit "hey!" "general" userW false).alert =
        some "Write at least a few words to share your confession." :=
  (C5_amended_min_length_only "hey!" "general" userW false).2 (by decide)

/-- C6 (confirmed): when a poll fails, the store is left exactly as it was,
one message is reported to the error channel, and the polling loop goes on to
process all subsequent ticks as if the failed tick had not happened. -/
theorem C6_fetch_failure_keeps_store (store : List Post) (e : String)
    (rest : List (Except String (Option (List Row)))) :
    (fetchPosts store (Except.error e)).1 = store
    ∧ (fetchPosts store (Except.error e)).2 = ["Error loading posts: " ++ e]
    ∧ pollLoop store (Except.error e :: rest) = pollLoop store rest :=
  ⟨rfl, rfl, rfl⟩

/-- C7 counterexample: reacting on an empty store returns the store unchanged
with no network write, but the log has zero entries — not the one failure
event the claim requires; the miss is silent in handleReact. -/
theorem C7_counterexample :
    handleReact [] "missing-id" "heart" false = ⟨[], none, []⟩
    ∧ (handleReact [] "missing-id" "heart" false).log.length = 0 :=
  ⟨rfl, rfl⟩

/-- C7 amended: for a post id not present in the store, handleReact returns
the store unchanged, issues no network write, and logs nothing at all — the
miss is a completely silent no-op. -/
theorem C7_amended_silent_noop (posts : List Post) (postId kind : String) (wf : Bool)
    (h : posts.find? (fun p => p.id == postId) = none) :
    handleReact posts postId kind wf = ⟨posts, none, []⟩ := by
  unfold handleReact
  rw [h]

/-- C7 witness: the theorem applied to the empty store and the id
"missing-id". -/
theorem C7_witness :
    handleReact [] "missing-id" "heart" true = ⟨[], none, []⟩ :=
  C7_amended_silent_noop [] "missing-id" "heart" true rfl

/-- C3 (confirmed): when the post is found in the store, handleReact sets its
tally at the clicked kind to the old count (0 when the entry is absent) plus
exactly 1, leaves every other kind of that tally unchanged, maps the store so
that only entries whose id matches are touched (every other position is
returned as it was), issues the network write of the full new tally — and the
resulting store does not depend on whether that write succeeds or fails, so a
failed write is never rolled back. -/
theorem C3_optimistic_increment (posts : List Post) (postId kind : String) (wf : Bool)
    (post : Post) (h : posts.find? (fun p => p.id == postId) = some post) :
    List.lookup kind (newTallyOf post kind) =
      some ((List.lookup kind post.reactions).getD 0 + 1)
    ∧ (∀ k2, k2 ≠ kind →
        List.lookup k2 (newTallyOf post kind) = List.lookup k2 post.reactions)
    ∧ (∀ i : Nat, (handleReact posts postId kind wf).posts[i]? =
        (posts[i]?).map fun p =>
          if p.id = postId then { p with reactions := newTallyOf post kind } else p)
    ∧ (handleReact posts postId kind wf).write = some (postId, newTallyOf post kind)
    ∧ (handleReact posts postId kind true).posts =
        (handleReact posts postId kind false).posts := by
  refine ⟨lookup_objSet_self _ _ _, fun k2 hk2 => lookup_objSet_ne _ _ _ _ hk2, ?_, ?_, ?_⟩
  · intro i
    simp [handleReact, h]
  · simp [handleReact, h]
  · simp [handleReact, h]

/-- C3 witness: the theorem applied to the store holding post p1, reacting
with the heart kind. -/
theorem C3_witness :
    (handleReact [oldPostC1] "p1" "heart" false).write =
      some ("p1", newTallyOf oldPostC1 "heart") :=
  (C3_optimistic_increment [oldPostC1] "p1" "heart" false oldPostC1 (by decide)).2.2.2.1

/-- C4 (confirmed): the top sort returns a permutation of its input that is
pairwise ordered descending by total reaction count with ties broken by
descending created-at, and on the scenario posts A (score 5, older),
B (score 5, newer), C (score 2) it returns [B, A, C]. -/
theorem C4_top_sort (posts : List Post) :
    (sortPosts posts "top").Perm posts
    ∧ (sortPosts posts "top").Pairwise
        (fun a b => score b < score a ∨ (score a = score b ∧ b.createdAt ≤ a.createdAt))
    ∧ sortPosts [postA, postB, postC] "top" = [postB, postA, postC] := by
  refine ⟨?_, ?_, ?_⟩
  · rw [sortPosts_top]
    exact List.mergeSort_perm posts topLE
  · rw [sortPosts_top]
    exact (List.sorted_mergeSort topLE_trans topLE_total posts).imp
      (fun {a b} hab => (topLE_eq_true_iff a b).1 hab)
  · rw [sortPosts_top]
    simp [List.mergeSort, List.merge, topLE, score, postA, postB, postC]

/-- C8 (confirmed): when any of the three persisted identity keys is absent
(or empty, which JS falsiness treats the same), all three are regenerated
together — the id from the fresh random suffix, the nickname and color from
the fixed lists — and all three are persisted together, so no partial identity
is ever stored; any second call on the resulting storage returns the identical
triple and leaves the storage unchanged. -/
theorem C8_identity_regeneration (ls : LocalStorage) (randId : String)
    (ni : Fin NICKNAMES.length) (ci : Fin COLORS.length)
    (h : (isFalsy ls.userId || isFalsy ls.userName || isFalsy ls.userColor) = true) :
    (getOrCreateUserIdentity true ls randId ni ci).1.id = "anon-" ++ randId
    ∧ (getOrCreateUserIdentity true ls randId ni ci).1.name ∈ NICKNAMES
    ∧ (getOrCreateUserIdentity true ls randId ni ci).1.color ∈ COLORS
    ∧ (getOrCreateUserIdentity true ls randId ni ci).2 =
        ⟨some ((getOrCreateUserIdentity true ls randId ni ci).1.id),
         some ((getOrCreateUserIdentity true ls randId ni ci).1.name),
         some ((getOrCreateUserIdentity true ls randId ni ci).1.color)⟩
    ∧ ∀ (randId2 : String) (ni2 : Fin NICKNAMES.length) (ci2 : Fin COLORS.length),
        getOrCreateUserIdentity true (getOrCreateUserIdentity true ls randId ni ci).2
            randId2 ni2 ci2
          = getOrCreateUserIdentity true ls randId ni ci := by
  have e : getOrCreateUserIdentity true ls randId ni ci =
      (⟨"anon-" ++ randId, NICKNAMES.get ni, COLORS.get ci⟩,
       ⟨some ("anon-" ++ randId), some (NICKNAMES.get ni), some (COLORS.get ci)⟩) := by
    unfold getOrCreateUserIdentity
    rw [if_pos rfl, if_pos h]
  have hi : isFalsy (some ("anon-" ++ randId)) = false := by
    simp only [isFalsy, beq_eq_false_iff_ne]
    intro hcontra
    have hlen := congrArg String.length hcontra
    rw [String.length_append] at hlen
    have h5 : ("anon-" : String).length = 5 := rfl
    have h0 : ("" : String).length = 0 := rfl
    omega
  have hn : ∀ i : Fin NICKNAMES.length, isFalsy (some (NICKNAMES.get i)) = false := by decide
  have hc : ∀ i : Fin COLORS.length, isFalsy (some (COLORS.get i)) = false := by decide
  rw [e]
  refine ⟨rfl, List.get_mem _ _ _, List.get_mem _ _ _, rfl, ?_⟩
  intro randId2 ni2 ci2
  exact getOrCreate_second_call _ _ _ hi (hn ni) (hc ci) randId2 ni2 ci2

/-- C8 witness: the theorem applied to the storage with all three keys absent
and a fixed random draw. -/
theorem C8_witness :
    (getOrCreateUserIdentity true ⟨none, none, none⟩ "w1a2b3c4"
        ⟨0, by decide⟩ ⟨0, by decide⟩).1.name ∈ NICKNAMES :=
  (C8_identity_regeneration ⟨none, none, none⟩ "w1a2b3c4"
    ⟨0, by decide⟩ ⟨0, by decide⟩ (by decide)).2.1

/-- C9 (confirmed): sortPosts is a pure total function in this embedding; for
every mode its output is a permutation of the input (so it never errors and
never loses or invents posts), the empty input yields the empty output, and a
post whose tally entries are all zero (or absent) has score 0 rather than
erroring. -/
theorem C9_order_pure_total (posts : List Post) (mode : String) (p : Post)
    (h : ∀ kv ∈ p.reactions, kv.2 = 0) :
    (sortPosts posts mode).Perm posts
    ∧ sortPosts [] mode = []
    ∧ score p = 0 := by
  refine ⟨?_, ?_, ?_⟩
  · unfold sortPosts
    split_ifs <;> exact List.mergeSort_perm _ _
  · unfold sortPosts
    split_ifs <;> simp
  · rw [score_eq_sum]
    refine List.sum_eq_zero ?_
    intro x hx
    obtain ⟨kv, hkv, rfl⟩ := List.mem_map.1 hx
    exact h kv hkv

/-- C9 witness: the theorem applied to the empty store, the top mode and the
all-zero-tally post. -/
theorem C9_witness : score postZero = 0 :=
  (C9_order_pure_total [] "top" postZero (by decide)).2.2

/-- C10 (confirmed): every sort mode other than "oldest" and "top" — including
"newest" itself and any unrecognized string — takes the default branch of the
switch and yields exactly the newest ordering. -/
theorem C10_unknown_mode_newest (posts : List Post) (mode : String)
    (h1 : mode ≠ "oldest") (h2 : mode ≠ "top") :
    sortPosts posts mode = sortPosts posts "newest" := by
  unfold sortPosts
  rw [if_neg h1, if_neg h2, if_neg (by decide), if_neg (by decide)]

/-- C10 witness: the theorem applied to the unrecognized mode "hot". -/
theorem C10_witness :
    sortPosts [postA] "hot" = sortPosts [postA] "newest" :=
  C10_unknown_mode_newest [postA] "hot" (by decide) (by decide)

end AnonWall
